import Mathlib

/-!
Shallow embedding of the Tinyfy Nova extension (feisar-uk/Tinyfy.novaextension).

The embedded code comes from two places of the repository:
  * Scripts/main.js - the extension entry point (the primary implementation);
  * two further variants of the same script embedded in README.md; the second
    variant carries the diagnostic-extraction regexes and the jumpToError
    cursor computation that the spec describes, so those are embedded from it.

Host effects (process spawning, filesystem, notifications) are modelled by
passing their results in explicitly as an environment record, and each
function returns a structured outcome recording which effects it performed
(whether a subprocess was spawned, whether the output file was written, and
which notification was raised).
-/

namespace Tinyfy

/-! ## String primitives

The JS string operations used by the source (endsWith, trim, the
end-anchored replace) are given list-level implementations over the
character data of the string, so that every model function can be evaluated
inside proofs on concrete inputs. -/

/-- JS String.prototype.endsWith. -/
def strEndsWith (s suffix : String) : Bool :=
  List.isSuffixOf suffix.data s.data

/-- Drop the last n characters (used to strip a matched extension). -/
def strDropRight (s : String) (n : Nat) : String :=
  String.mk (s.data.take (s.data.length - n))

/-- Leading and trailing whitespace removal on a character list. -/
def trimChars (l : List Char) : List Char :=
  ((l.dropWhile (fun c => c.isWhitespace)).reverse.dropWhile
    (fun c => c.isWhitespace)).reverse

/-- JS String.prototype.trim. -/
def strTrim (s : String) : String :=
  String.mk (trimChars s.data)

/-! ## formatBytes (Scripts/main.js, lines 76-81)

JavaScript:
  if (bytes === 0) return "0 Bytes";
  if (bytes < 1024) return bytes + " B";
  const kb = bytes / 1024;
  return kb.toFixed(1) + " KB";

The saved amount can be negative in JS (originalSize - minifiedSize), so the
argument is an Int.  Number.prototype.toFixed(1) is modelled as decimal
rounding half away from zero to one fractional digit; for nonnegative values
(the only ones reaching the KB branch, since that branch needs bytes >= 1024)
this is floor of (bytes*10/1024 + 1/2). -/
def formatBytes (bytes : Int) : String :=
  if bytes = 0 then "0 Bytes"
  else if bytes < 1024 then toString bytes ++ " B"
  else
    let tenths : Int := (bytes * 20 + 1024) / 2048
    toString (tenths / 10) ++ "." ++ toString (tenths % 10) ++ " KB"

/-! ## Output-path computation (Scripts/main.js, lines 210-211 and 277-278)

JavaScript:
  const suffix = nova.config.get("terser.outputSuffix", "string") || ".min.js";
  const outputPath = inputPath.replace(/\.js$/, suffix);
and for CSS:
  const suffix = nova.config.get("lightningcss.outputSuffix", "string") || ".min.css";
  const outputPath = inputPath.replace(/\.(css|scss|less)$/, suffix);

The configuration value is an Option String (null when unset); the JS
logical-or also replaces the empty string by the default, since "" is falsy. -/
def resolveSuffix (cfg : Option String) (dflt : String) : String :=
  match cfg with
  | none => dflt
  | some s => if s = "" then dflt else s

/-- Replacement for the anchored regex matching a literal ".js" at the end of
the string: the regex can only match the final three characters, so it is
exactly an endsWith test. -/
def replaceJsExt (p suffix : String) : String :=
  if strEndsWith p ".js" then strDropRight p 3 ++ suffix else p

/-- Replacement for the anchored regex with the alternation css|scss|less.
The three candidate suffixes ".css", ".scss", ".less" are mutually exclusive
as string suffixes, so the alternation is an endsWith chain. -/
def replaceCssExt (p suffix : String) : String :=
  if strEndsWith p ".css" then strDropRight p 4 ++ suffix
  else if strEndsWith p ".scss" then strDropRight p 5 ++ suffix
  else if strEndsWith p ".less" then strDropRight p 5 ++ suffix
  else p

/-- Resolved output path for the JS pipeline. -/
def jsOutputPath (inputPath : String) (suffixCfg : Option String) : String :=
  replaceJsExt inputPath (resolveSuffix suffixCfg ".min.js")

/-- Resolved output path for the CSS pipeline. -/
def cssOutputPath (inputPath : String) (suffixCfg : Option String) : String :=
  replaceCssExt inputPath (resolveSuffix suffixCfg ".min.css")

/-! ## runMinifier exit handling (Scripts/main.js, lines 364-375)

JavaScript:
  process.onDidExit((status) => {
    if (status === 0) {
      if (!stdoutOutput || stdoutOutput.length === 0) {
        reject(new Error(toolName + " produced no output"));
      } else {
        resolve(stdoutOutput);
      }
    } else {
      const errorMsg = stderrOutput.trim() || ("Process exited with status " + status);
      reject(new Error(errorMsg));
    }
  });
-/
inductive RunResult where
  | resolved (out : String)
  | noOutput (tool : String)
  | toolFailed (msg : String)
deriving DecidableEq

/-- True exactly on the toolFailed constructor: the rejection produced in the
nonzero-exit branch of the exit handler. -/
def RunResult.isToolFailure : RunResult → Bool
  | .toolFailed _ => true
  | _ => false

/-- The exit handler of runMinifier, as a function of the accumulated stdout
and stderr text and the exit status. -/
def runMinifierExit (toolName stdoutOutput stderrOutput : String) (status : Int) :
    RunResult :=
  if status = 0 then
    if stdoutOutput.length = 0 then .noOutput toolName
    else .resolved stdoutOutput
  else
    .toolFailed (if strTrim stderrOutput = "" then
      "Process exited with status " ++ toString status
    else strTrim stderrOutput)

/-! ## checkCommand (Scripts/main.js, lines 84-107)

stdout chunks are accumulated as output += line.trim(); the exit handler
resolves with success true and the accumulated text at status 0, and with
success false and a null version otherwise. -/
def accumTrimmed (chunks : List String) : String :=
  chunks.foldl (fun acc line => acc ++ strTrim line) ""

structure CheckResult where
  success : Bool
  version : Option String
deriving DecidableEq

/-- The onDidExit handler of checkCommand. -/
def checkCommandExit (output : String) (status : Int) : CheckResult :=
  if status = 0 then ⟨true, some output⟩ else ⟨false, none⟩

/-- checkCommand as a function of the stdout chunk sequence and exit status. -/
def checkCommand (chunks : List String) (status : Int) : CheckResult :=
  checkCommandExit (accumTrimmed chunks) status

/-! ## minifyJS (Scripts/main.js, lines 197-261)

The environment collects the results of every host interaction the function
can perform, in program order: the dependency flag, the suffix setting, the
input read (an Except, error being a thrown filesystem exception message),
the tool run (exit status and accumulated streams), and the output write. -/
structure JsEnv where
  terserInstalled : Bool
  suffixCfg : Option String
  readResult : Except String String
  toolStatus : Int
  toolStdout : String
  toolStderr : String
  writeResult : Except String Unit

inductive JSOutcome where
  | notInstalled
  | samePath
  | failed (msg : String)
  | ok (outPath : String) (saved : Int)
deriving DecidableEq

/-- Trace of one minifyJS job: whether a subprocess was spawned, whether the
output file was written, and the reported outcome. -/
structure JSRun where
  spawned : Bool
  wrote : Bool
  outcome : JSOutcome
deriving DecidableEq

/-- minifyJS from Scripts/main.js.  notifications: notInstalled raises the
tool-not-installed notification, samePath only logs, failed raises
a notification titled "Terser: Minification Failed" whose body is the carried
message, ok raises the success notification reporting the saved amount. -/
def minifyJS (env : JsEnv) (inputPath : String) : JSRun :=
  if env.terserInstalled = false then ⟨false, false, .notInstalled⟩
  else
    let outputPath := jsOutputPath inputPath env.suffixCfg
    if inputPath = outputPath then ⟨false, false, .samePath⟩
    else
      match env.readResult with
      | .error e => ⟨false, false, .failed e⟩
      | .ok content =>
        if content.length = 0 then ⟨false, false, .failed "Input file is empty"⟩
        else
          match runMinifierExit "Terser" env.toolStdout env.toolStderr env.toolStatus with
          | .toolFailed m => ⟨true, false, .failed m⟩
          | .noOutput tool => ⟨true, false, .failed (tool ++ " produced no output")⟩
          | .resolved minifiedContent =>
            match env.writeResult with
            | .error e => ⟨true, false, .failed e⟩
            | .ok _ =>
              ⟨true, true,
                .ok outputPath ((content.length : Int) - (minifiedContent.length : Int))⟩

/-- The notification raised for a failed minifyJS job (title, body), from the
catch block of Scripts/main.js lines 253-260.  Both a tool failure and a
write failure funnel into the same catch and produce the same notification
shape. -/
def jsFailureNotification : JSOutcome → Option (String × String)
  | .failed m => some ("Terser: Minification Failed", m)
  | _ => none

/-! ## minifyCSS (Scripts/main.js, lines 264-336)

File-path mode: the tool itself writes the output file.  Both stat calls sit
inside the single try block, so either of them throwing lands in the catch
and raises the failure notification. -/
structure CssEnv where
  lightningInstalled : Bool
  suffixCfg : Option String
  statInput : Except String Nat
  toolStatus : Int
  toolStderr : String
  statOutput : Except String Nat

inductive CSSOutcome where
  | notInstalled
  | samePath
  | failed (msg : String)
  | ok (outPath : String) (saved : Int)
deriving DecidableEq

structure CSSRun where
  spawned : Bool
  outcome : CSSOutcome
deriving DecidableEq

/-- minifyCSS from Scripts/main.js.  failed raises a notification titled
"Lightning CSS: Minification Failed" with the carried message. -/
def minifyCSS (env : CssEnv) (inputPath : String) : CSSRun :=
  if env.lightningInstalled = false then ⟨false, .notInstalled⟩
  else
    let outputPath := cssOutputPath inputPath env.suffixCfg
    if inputPath = outputPath then ⟨false, .samePath⟩
    else
      match env.statInput with
      | .error e => ⟨false, .failed e⟩
      | .ok originalSize =>
        if env.toolStatus = 0 then
          match env.statOutput with
          | .error e => ⟨true, .failed e⟩
          | .ok minifiedSize =>
            ⟨true, .ok outputPath ((originalSize : Int) - (minifiedSize : Int))⟩
        else
          ⟨true, .failed (if strTrim env.toolStderr = "" then
            "Process exited with status " ++ toString env.toolStatus
          else strTrim env.toolStderr)⟩

/-! ## handleSave (Scripts/main.js, lines 138-194)

The dispatcher: classification by the document's syntax tag, per-family
enable flags (null config defaulting to true via the nullish-coalescing
operator), and the hardcoded already-minified filters. -/
structure SaveEnv where
  /-- editor.document.syntax (null when the document has no syntax tag). -/
  syn : Option String
  path : Option String
  remote : Bool
  terserEnabled : Option Bool
  lightningEnabled : Option Bool
deriving DecidableEq

inductive Dispatch where
  | noPath
  | remoteSkip
  | jsDisabled
  | jsAlreadyMin
  | toJS (p : String)
  | cssDisabled
  | cssAlreadyMin
  | toCSS (p : String)
  | ignored
deriving DecidableEq

def handleSave (env : SaveEnv) : Dispatch :=
  match env.path with
  | none => .noPath
  | some filePath =>
    if env.remote then .remoteSkip
    else if env.syn = some "javascript" then
      if (env.terserEnabled.getD true) = false then .jsDisabled
      else if strEndsWith filePath ".min.js" then .jsAlreadyMin
      else .toJS filePath
    else if env.syn = some "css" ∨ env.syn = some "scss" ∨ env.syn = some "less" then
      if (env.lightningEnabled.getD true) = false then .cssDisabled
      else if strEndsWith filePath ".min.css" then .cssAlreadyMin
      else .toCSS filePath
    else .ignored

/-! ## README variant 1 (README.md, lines 230-335 and 338-425)

The first main.js variant embedded in the README guards the post-run size
queries: a stat failure only suppresses the size report, and a write failure
after a zero exit status is rejected with a dedicated message prefix. -/
namespace Variant1

/-- Exit handler of the minifyJS promise (README.md, lines 289-303): at exit
status 0 the handler writes the output file itself, wrapping a write error in
the message prefix "Failed to write output file: "; at nonzero status it
rejects with the "Terser failed with status ..." message. -/
def jsExit (status : Int) (stderrOutput : String) (write : Except String Unit) :
    Except String Unit :=
  if status = 0 then
    match write with
    | .ok _ => .ok ()
    | .error writeError => .error ("Failed to write output file: " ++ writeError)
  else
    .error ("Terser failed with status " ++ toString status ++ ". Error: "
      ++ strTrim stderrOutput)

structure CssEnv where
  installed : Bool
  suffixCfg : Option String
  /-- stat of the input path, wrapped in its own try/catch: an error makes
  originalSize null and suppresses the size report. -/
  statInput : Except String Nat
  status : Int
  stderr : String
  /-- stat of the output path, wrapped in its own try/catch: an error leaves
  savedInfo empty. -/
  statOutput : Except String Nat

inductive CssOutcome where
  | notInstalled
  | samePath
  | failed (msg : String)
  /-- Success notification; savedInfo is the size-report suffix of the body,
  empty when either size query failed. -/
  | ok (savedInfo : String)
deriving DecidableEq

/-- minifyCSS from README.md lines 338-425. -/
def minifyCSS (env : CssEnv) (inputPath : String) : CssOutcome :=
  if env.installed = false then .notInstalled
  else
    let outputPath := cssOutputPath inputPath env.suffixCfg
    if inputPath = outputPath then .samePath
    else
      let originalSize : Option Nat :=
        match env.statInput with
        | .ok n => some n
        | .error _ => none
      if env.status = 0 then
        let savedInfo :=
          match originalSize with
          | none => ""
          | some sz =>
            match env.statOutput with
            | .error _ => ""
            | .ok minSize => " (saved " ++ formatBytes ((sz : Int) - (minSize : Int)) ++ ")"
        .ok savedInfo
      else
        .failed ("Lightning CSS failed with status " ++ toString env.status
          ++ ". Error: " ++ strTrim env.stderr)

end Variant1

/-! ## Diagnostic extraction (README.md variant 2, lines 680-706 and 768-798)

The JS catch block matches the Terser error text against the regex
  Parse error at [^:]+:(\d+),(\d+)     (case-insensitive search)
and the CSS catch block matches
  line:\s*(\d+),\s*column:\s*(\d+)     and    kind:\s*(\w+)\(
All three regexes are deterministic: each greedy class must stop at the first
character outside it, which the following literal then has to match, so a
regex search is faithfully a scan trying an anchored parse at every start
position, left to right. -/

/-- Case-insensitive literal-prefix match, returning the rest of the input. -/
def matchCI : List Char → List Char → Option (List Char)
  | [], cs => some cs
  | _ :: _, [] => none
  | p :: ps, c :: cs => if p.toLower = c.toLower then matchCI ps cs else none

/-- Split the longest leading run of decimal digits (the regex class d). -/
def takeDigits : List Char → List Char × List Char
  | [] => ([], [])
  | c :: cs =>
    if c.isDigit then
      let (d, r) := takeDigits cs
      (c :: d, r)
    else ([], c :: cs)

/-- parseInt on a nonempty digit string. -/
def digitsVal (ds : List Char) : Nat :=
  ds.foldl (fun n c => n * 10 + (c.toNat - 48)) 0

/-- Drop leading whitespace (the regex class s). -/
def skipWs (cs : List Char) : List Char :=
  cs.dropWhile (fun c => c.isWhitespace)

/-- The regex word class w, ASCII letters, digits and underscore. -/
def isWordChar (c : Char) : Bool :=
  c.isAlphanum || c = '_'

/-- Anchored parse of pattern A at the head of the input:
literal "Parse error at " (case-insensitively), one or more non-colon
characters, a colon, the line digits, a comma, the column digits. -/
def parseAat (cs : List Char) : Option (Nat × Nat) :=
  match matchCI (String.toList "parse error at ") cs with
  | none => none
  | some r1 =>
    let seg := r1.takeWhile (fun c => c ≠ ':')
    if seg.isEmpty then none
    else
      match r1.dropWhile (fun c => c ≠ ':') with
      | ':' :: r2 =>
        let (d1, r3) := takeDigits r2
        if d1.isEmpty then none
        else
          match r3 with
          | ',' :: r4 =>
            let (d2, _) := takeDigits r4
            if d2.isEmpty then none
            else some (digitsVal d1, digitsVal d2)
          | _ => none
      | _ => none

/-- Leftmost search for pattern A. -/
def scanA : List Char → Option (Nat × Nat)
  | [] => none
  | c :: cs =>
    match parseAat (c :: cs) with
    | some r => some r
    | none => scanA cs

/-- Anchored parse of pattern B at the head of the input: literal "line:",
optional whitespace, line digits, a comma, optional whitespace, literal
"column:", optional whitespace, column digits. -/
def parseBat (cs : List Char) : Option (Nat × Nat) :=
  match matchCI (String.toList "line:") cs with
  | none => none
  | some r1 =>
    let (d1, r2) := takeDigits (skipWs r1)
    if d1.isEmpty then none
    else
      match r2 with
      | ',' :: r3 =>
        match matchCI (String.toList "column:") (skipWs r3) with
        | none => none
        | some r4 =>
          let (d2, _) := takeDigits (skipWs r4)
          if d2.isEmpty then none
          else some (digitsVal d1, digitsVal d2)
      | _ => none

/-- Leftmost search for pattern B. -/
def scanB : List Char → Option (Nat × Nat)
  | [] => none
  | c :: cs =>
    match parseBat (c :: cs) with
    | some r => some r
    | none => scanB cs

/-- Anchored parse of the kind pattern at the head of the input: literal
"kind:", optional whitespace, one or more word characters, an opening
parenthesis; the captured word is the error kind. -/
def parseKindAt (cs : List Char) : Option String :=
  match matchCI (String.toList "kind:") cs with
  | none => none
  | some r1 =>
    let afterWs := skipWs r1
    let w := afterWs.takeWhile isWordChar
    if w.isEmpty then none
    else
      match afterWs.dropWhile isWordChar with
      | '(' :: _ => some (String.mk w)
      | _ => none

/-- Leftmost search for the kind pattern. -/
def scanKind : List Char → Option String
  | [] => none
  | c :: cs =>
    match parseKindAt (c :: cs) with
    | some r => some r
    | none => scanKind cs

/-- The normalized diagnostic shape of the spec: 0-based line and column as
found in the raw text, with a best-effort error kind. -/
structure Diagnostic where
  line : Nat
  column : Nat
  kind : Option String
deriving DecidableEq

inductive ToolKind where
  | js
  | css
deriving DecidableEq

/-- The diagnostic extractor: pattern A for the JS tool family, pattern B
(with the optional kind capture) for the CSS tool family; none when the raw
text matches neither family's pattern. -/
def extract (raw : String) (tk : ToolKind) : Option Diagnostic :=
  match tk with
  | .js =>
    match scanA raw.toList with
    | none => none
    | some lc => some ⟨lc.1, lc.2, none⟩
  | .css =>
    match scanB raw.toList with
    | none => none
    | some lc => some ⟨lc.1, lc.2, scanKind raw.toList⟩

/-- JS failure notification of README.md variant 2 (lines 680-706): a located
diagnostic produces the parse-error notification; otherwise the raw message
is surfaced verbatim. -/
def jsFailReport (msg : String) : String × String :=
  match extract msg .js with
  | some d =>
    ("Error Parsing JavaScript",
      "Check near line " ++ toString d.line ++ ", column " ++ toString d.column
        ++ " for the error.")
  | none => ("JS Minification Failed", msg)

/-- CSS failure notification of README.md variant 2 (lines 768-798): a missing
kind capture falls back to the title tag "Parse Error"; an unmatched location
pattern surfaces the raw message verbatim. -/
def cssFailReport (msg : String) : String × String :=
  match extract msg .css with
  | some d =>
    ("Error Parsing CSS: " ++ d.kind.getD "Parse Error",
      "Check near line " ++ toString d.line ++ ", column " ++ toString d.column
        ++ " for the error.")
  | none => ("CSS Minification Failed", msg)

/-! ## jumpToError (README.md variant 2, lines 845-862)

JavaScript:
  const lines = editor.document.getTextInRange(new Range(0, editor.document.length)).split('\n');
  let position = 0;
  for (let i = 0; i < Math.min(line, lines.length); i++) {
    position += lines[i].length + 1;
  }
  position += column;
  position = Math.min(position, editor.document.length);
  editor.selectedRange = new Range(position, position);

The document is modelled by its full text; the split, the loop and the final
clamp are translated directly. -/
def docLines (text : String) : List String :=
  text.split (fun c => c = '\n')

/-- The loop of jumpToError: sum of (length + 1) over the first n lines. -/
def sumLineLens (ls : List String) (n : Nat) : Nat :=
  ((ls.take n).map (fun l => l.length + 1)).sum

/-- The clamped cursor offset computed by jumpToError. -/
def jumpPosition (text : String) (line column : Nat) : Nat :=
  let ls := docLines text
  min (sumLineLens ls (min line ls.length) + column) text.length

/-- The selection set by jumpToError: a collapsed range at the clamped
offset. -/
def jumpSelection (text : String) (line column : Nat) : Nat × Nat :=
  (jumpPosition text line column, jumpPosition text line column)

/-! ## Concrete environments used by witnesses and counterexamples -/

/-- Terser installed, default suffix, nonempty input, exit 0 with empty
stdout: the tool ran but produced nothing. -/
def envEmptyStdout : JsEnv := ⟨true, none, .ok "var x", 0, "", "", .ok ()⟩

/-- A save of app-min.js while the configured output suffix is "-min.js":
the filename already carries the configured suffix. -/
def saveEnvCustomSuffix : SaveEnv :=
  ⟨some "javascript", some "app-min.js", false, none, none⟩

/-- The job environment for that save: Terser installed, configured suffix
"-min.js", readable input, successful tool run and write. -/
def envCustomSuffix : JsEnv := ⟨true, some "-min.js", .ok "var x=1;", 0, "x=1;", "", .ok ()⟩

/-- A plain save of a not-yet-minified file with everything enabled. -/
def saveEnvPlain : SaveEnv := ⟨some "javascript", some "a.js", false, none, none⟩

/-- The byte-savings scenario of the spec: a 1000-byte input and a 400-byte
minified result, written successfully. -/
def envSavings : JsEnv :=
  ⟨true, none, .ok (String.mk (List.replicate 1000 'a')), 0,
    String.mk (List.replicate 400 'b'), "", .ok ()⟩

/-- Lightning CSS run that exits 0 but whose post-hoc output stat throws. -/
def envStatFail : CssEnv := ⟨true, none, .ok 1000, 0, "", .error "could not stat output"⟩

/-- The same scenario against the README variant-1 pipeline. -/
def envStatFailV1 : Variant1.CssEnv :=
  ⟨true, none, .ok 1000, 0, "", .error "could not stat output"⟩

/-- A tool failure whose stderr text is "disk full". -/
def envToolFail : JsEnv := ⟨true, none, .ok "var x", 1, "", "disk full", .ok ()⟩

/-- A write failure with message "disk full" after a successful tool run. -/
def envWriteFail : JsEnv := ⟨true, none, .ok "var x", 0, "x", "", .error "disk full"⟩

/-- Helper for the distinct-failure-category theorem: a string starting with
the write-failure prefix never equals one starting with the tool-failure
prefix, because the first characters already differ. -/
theorem writeMsg_ne_toolMsg (w r : String) :
    ¬("Failed to write output file: " ++ w = "Terser failed with status " ++ r) := by
  intro h
  have h2 := congrArg String.data h
  rw [String.data_append, String.data_append] at h2
  have hF : ("Failed to write output file: ").data
      = 'F' :: ("ailed to write output file: ").data := rfl
  have hT : ("Terser failed with status ").data
      = 'T' :: ("erser failed with status ").data := rfl
  rw [hF, hT, List.cons_append, List.cons_append] at h2
  injection h2 with hc _
  exact absurd hc (by decide)

/-- Claim C1: for every input path and configured suffix, either the computed
output path differs from the input path, or the job short-circuits without
spawning a subprocess and without writing a file; hence no minification job
ever writes to its own input path. -/
theorem c1_no_self_overwrite (je : JsEnv) (ce : CssEnv) (p q : String) :
    (jsOutputPath p je.suffixCfg ≠ p ∨
      ((minifyJS je p).spawned = false ∧ (minifyJS je p).wrote = false))
    ∧ (cssOutputPath q ce.suffixCfg ≠ q ∨ (minifyCSS ce q).spawned = false) := by
  constructor
  · by_cases h : jsOutputPath p je.suffixCfg = p
    · right
      cases hb : je.terserInstalled <;> simp [minifyJS, hb, h]
    · exact Or.inl h
  · by_cases h : cssOutputPath q ce.suffixCfg = q
    · right
      cases hb : ce.lightningInstalled <;> simp [minifyCSS, hb, h]
    · exact Or.inl h

/-- Claim C2: the three diagnostic-extraction test vectors of the spec, and
the verbatim fallback of the failure notifications when no pattern matches. -/
theorem c2_diagnostic_vectors :
    extract "Parse error at 0:114,5" .js = some ⟨114, 5, none⟩
    ∧ extract "file main.css, line: 304, column: 2, kind: InvalidSelector(EndOfInput)" .css
        = some ⟨304, 2, some "InvalidSelector"⟩
    ∧ extract "unexpected failure" .js = none
    ∧ extract "unexpected failure" .css = none
    ∧ jsFailReport "unexpected failure" = ("JS Minification Failed", "unexpected failure")
    ∧ cssFailReport "unexpected failure" = ("CSS Minification Failed", "unexpected failure") :=
  ⟨rfl, rfl, rfl, rfl, rfl, rfl⟩

/-- Claim C3: the exit handler marks a run as a tool failure exactly when the
exit status is nonzero, whatever the accumulated stdout holds, and the probe
reports success exactly at exit status 0. -/
theorem c3_exit_status_classification (tool sOut sErr : String) (status : Int)
    (chunks : List String) :
    ((runMinifierExit tool sOut sErr status).isToolFailure = true ↔ ¬status = 0)
    ∧ ((checkCommand chunks status).success = true ↔ status = 0) := by
  constructor
  · by_cases h : status = 0
    · by_cases h2 : sOut.length = 0 <;>
        simp [runMinifierExit, h, h2, RunResult.isToolFailure]
    · simp [runMinifierExit, h, RunResult.isToolFailure]
  · by_cases h : status = 0 <;> simp [checkCommand, checkCommandExit, h]

/-- Closed instance of the claim C3 theorem at exit status 0. -/
theorem c3_exit_status_classification_w :
    (checkCommand [] 0).success = true :=
  (c3_exit_status_classification "Terser" "" "" 0 []).2.mpr rfl

/-- Claim C4: in stream mode, exit status 0 with empty accumulated stdout
fails the job with the synthesized produced-no-output message and writes no
output file. -/
theorem c4_empty_stdout_fails (env : JsEnv) (p : String)
    (h0 : env.toolStatus = 0) (he : env.toolStdout = "")
    (hs : (minifyJS env p).spawned = true) :
    (minifyJS env p).outcome = .failed "Terser produced no output"
    ∧ (minifyJS env p).wrote = false := by
  obtain ⟨inst, cfg, rr, st, so, se, wr⟩ := env
  dsimp only at h0 he
  subst h0 he
  by_cases hp : p = jsOutputPath p cfg
  · have hq := hp.symm
    cases inst <;> simp [minifyJS, hq] at hs
  · cases inst
    · simp [minifyJS] at hs
    · cases rr with
      | error e => simp [minifyJS, hp] at hs
      | ok content =>
        by_cases hc : content.length = 0
        · simp [minifyJS, hp, hc] at hs
        · simp [minifyJS, runMinifierExit, hp, hc]

/-- Closed instance of the claim C4 theorem. -/
theorem c4_empty_stdout_fails_w :
    (minifyJS envEmptyStdout "a.js").outcome = .failed "Terser produced no output"
    ∧ (minifyJS envEmptyStdout "a.js").wrote = false :=
  c4_empty_stdout_fails envEmptyStdout "a.js" rfl rfl rfl

/-- Claim C5 counterexample: with configured output suffix "-min.js", the
save of app-min.js (whose name already carries that suffix) is dispatched to
the pipeline rather than skipped, and the job spawns a subprocess; the
dispatcher tests only the hardcoded ".min.js". -/
theorem c5_counterexample :
    handleSave saveEnvCustomSuffix = .toJS "app-min.js"
    ∧ strEndsWith "app-min.js" "-min.js" = true
    ∧ strEndsWith "app-min.js" ".min.js" = false
    ∧ (minifyJS envCustomSuffix "app-min.js").spawned = true := by
  refine ⟨by decide, by decide, by decide, by decide⟩

/-- Claim C5 as amended: the dispatcher skips exactly the files carrying the
hardcoded default suffixes: whenever it submits a file to a pipeline, that
file's name does not end in ".min.js" (JS family) or ".min.css" (CSS
family); the configured suffix plays no part in the skip test. -/
theorem c5_dispatcher_skip (env : SaveEnv) (p : String) :
    (handleSave env = .toJS p → strEndsWith p ".min.js" = false)
    ∧ (handleSave env = .toCSS p → strEndsWith p ".min.css" = false) := by
  obtain ⟨syn, path, remote, te, le⟩ := env
  cases path with
  | none => constructor <;> intro h <;> simp [handleSave] at h
  | some filePath =>
    constructor <;> intro h <;>
      simp only [handleSave] at h <;>
      split_ifs at h <;> simp_all

/-- Closed instance of the claim C5 amended theorem. -/
theorem c5_dispatcher_skip_w :
    handleSave saveEnvPlain = .toJS "a.js" ∧ strEndsWith "a.js" ".min.js" = false :=
  ⟨by decide, (c5_dispatcher_skip saveEnvPlain "a.js").1 (by decide)⟩

set_option maxRecDepth 100000 in
/-- Claim C6 counterexample: the 1000-byte input with a 400-byte minified
result does save 600 bytes, but the formatter renders 600 as "600 B" (the KB
branch needs at least 1024), not "0.6 KB". -/
theorem c6_counterexample :
    minifyJS envSavings "app.js" = ⟨true, true, .ok "app.min.js" 600⟩
    ∧ formatBytes 600 = "600 B"
    ∧ ¬formatBytes 600 = "0.6 KB" := by
  refine ⟨by decide, by decide, by decide⟩

set_option maxRecDepth 100000 in
/-- Claim C6 as amended: in the byte-savings scenario the reported saved
amount is 600 bytes and its rendering is "600 B"; amounts reach the KB
rendering only from 1024 bytes up, for example 1433 renders as "1.4 KB". -/
theorem c6_savings_format :
    minifyJS envSavings "app.js" = ⟨true, true, .ok "app.min.js" 600⟩
    ∧ formatBytes 600 = "600 B"
    ∧ formatBytes 1433 = "1.4 KB" := by
  refine ⟨by decide, by decide, by decide⟩

/-- Claim C7 counterexample: in Scripts/main.js, a Lightning CSS run that
exits 0 but whose post-hoc output stat throws is reported as a failure (the
catch raises the Minification Failed notification), not as a success without
the size report. -/
theorem c7_counterexample :
    minifyCSS envStatFail "style.css" = ⟨true, .failed "could not stat output"⟩
    ∧ envStatFail.toolStatus = 0 := by
  refine ⟨by decide, by decide⟩

/-- Claim C7 as amended: the success-despite-failed-size-query behavior holds
in the README variant-1 pipeline, where both size queries sit in their own
try blocks: there a failed output stat only empties the size report. -/
theorem c7_variant1_stat_failure (env : Variant1.CssEnv) (p e : String)
    (hi : env.installed = true)
    (hp : ¬p = cssOutputPath p env.suffixCfg)
    (h0 : env.status = 0)
    (hs : env.statOutput = .error e) :
    Variant1.minifyCSS env p = .ok "" := by
  obtain ⟨inst, cfg, si, st, er, so⟩ := env
  dsimp only at hi h0 hs
  subst hi h0 hs
  cases si <;> simp [Variant1.minifyCSS, hp]

/-- Closed instance of the claim C7 amended theorem. -/
theorem c7_variant1_stat_failure_w :
    Variant1.minifyCSS envStatFailV1 "style.css" = .ok "" :=
  c7_variant1_stat_failure envStatFailV1 "style.css" "could not stat output"
    (by decide) (by decide) (by decide) rfl

/-- Claim C8 counterexample: in Scripts/main.js a write failure after a
successful tool run and a tool failure produce literally the same
notification (same title, and bodies that can coincide), so the report does
not distinguish the two failure categories. -/
theorem c8_counterexample :
    (minifyJS envToolFail "a.js").outcome = .failed "disk full"
    ∧ (minifyJS envWriteFail "a.js").outcome = .failed "disk full"
    ∧ envWriteFail.toolStatus = 0
    ∧ ¬envToolFail.toolStatus = 0
    ∧ jsFailureNotification (minifyJS envToolFail "a.js").outcome
        = jsFailureNotification (minifyJS envWriteFail "a.js").outcome := by
  refine ⟨by decide, by decide, by decide, by decide, by decide⟩

/-- Claim C8 as amended: in the README variant-1 exit handler a write failure
after exit status 0 is rejected with the Failed-to-write prefix, which can
never coincide with a nonzero-status tool-failure rejection. -/
theorem c8_variant1_distinct_category (w s t : String) (n : Int) (hn : ¬n = 0) :
    Variant1.jsExit 0 t (.error w) ≠ Variant1.jsExit n s (.ok ()) := by
  intro h
  simp only [Variant1.jsExit, if_pos rfl, if_neg hn] at h
  injection h with h'
  rw [String.append_assoc, String.append_assoc] at h'
  exact writeMsg_ne_toolMsg _ _ h'

/-- Closed instance of the claim C8 amended theorem. -/
theorem c8_variant1_distinct_category_w :
    Variant1.jsExit 0 "" (.error "boom") ≠ Variant1.jsExit 1 "oops" (.ok ()) :=
  c8_variant1_distinct_category "boom" "oops" "" 1 (by decide)

/-- Claim C9 counterexample: when stdout arrives in two chunks, the probe's
version is the concatenation of the per-chunk trimmed text, which differs
from the trimmed standard-output text. -/
theorem c9_counterexample :
    checkCommand ["6.", " 1.0"] 0 = ⟨true, some "6.1.0"⟩
    ∧ strTrim ("6." ++ " 1.0") = "6. 1.0"
    ∧ ¬(("6.1.0" : String) = "6. 1.0") := by
  refine ⟨by decide, by decide, by decide⟩

/-- Claim C9 as amended: the probe reports available exactly at exit status
0, in which case the version is the concatenation of the trimmed stdout
chunks (equal to the trimmed stdout text when it arrives in one chunk), and
otherwise reports unavailable with a null version. -/
theorem c9_probe_classification (chunks : List String) (status : Int) (c : String) :
    ((checkCommand chunks status).success = true ↔ status = 0)
    ∧ (status = 0 → (checkCommand chunks status).version = some (accumTrimmed chunks))
    ∧ (¬status = 0 → (checkCommand chunks status).version = none)
    ∧ accumTrimmed [c] = strTrim c := by
  refine ⟨?_, ?_, ?_, ?_⟩
  · by_cases h : status = 0 <;> simp [checkCommand, checkCommandExit, h]
  · intro h; simp [checkCommand, checkCommandExit, h]
  · intro h; simp [checkCommand, checkCommandExit, h]
  · show ("" : String) ++ strTrim c = strTrim c
    exact String.empty_append _

/-- Closed instance of the claim C9 amended theorem. -/
theorem c9_probe_classification_w :
    (checkCommand ["1.2.3"] 0).success = true :=
  (c9_probe_classification ["1.2.3"] 0 "x").1.mpr rfl

/-- Claim C10: the cursor offset computed when jumping to an error location
is the sum of the lengths (plus one newline each) of the first
min(line, lineCount) lines plus the column, clamped to the document length,
so the selection never points past the end of the document. -/
theorem c10_jump_offset_clamped (text : String) (line column : Nat) :
    jumpPosition text line column ≤ text.length
    ∧ jumpPosition text line column
      = min (sumLineLens (docLines text) (min line (docLines text).length) + column)
          text.length
    ∧ jumpSelection text line column
      = (jumpPosition text line column, jumpPosition text line column) :=
  ⟨Nat.min_le_right _ _, rfl, rfl⟩

end Tinyfy
